import Mathlib

/-!
Verification of the kdi-alignment merge engine.

The repository aligns two public-transport datasets (an urban and an
extra-urban tier) plus several points-of-interest feeds into one merged
domain model.  This file gives a shallow embedding of the core
alignment code (`src/kdi/align.rs`, `src/kdi/enums.rs`,
`src/kdi/structs.rs`, and the older snapshot `src/main.rs` /
`src/kdigtfs.rs`) and proves properties about it.

Modelling conventions:
* Rust `Vec<T>` is `List T`; the unordered iteration over the source
  maps is modelled by quantifying over the flattened iteration sequence.
* Rust's stable `sort_by` is modelled by the stable insertion sort
  `sortLe` below, parameterised by the boolean comparator.
* A Rust function that can `panic!` / `unwrap` / `assert!` is modelled
  as returning `Option`, with `none` for the abort.
* `f64` values are only carried through by the code, never computed
  with; they are modelled by the opaque wrapper `F64` holding the raw
  source text.
-/

namespace Kdi

/-- Stable insertion of `a` into `l`: `a` is placed before the first
element `b` with `le a b`.  Together with `sortLe` this models the
behaviour of Rust's stable `sort_by`. -/
def insertLe (le : α → α → Bool) (a : α) : List α → List α
  | [] => [a]
  | b :: t => if le a b then a :: b :: t else b :: insertLe le a t

/-- Stable insertion sort by the boolean comparator `le`; the model of
Rust's `Vec::sort_by`. -/
def sortLe (le : α → α → Bool) : List α → List α
  | [] => []
  | a :: t => insertLe le a (sortLe le t)

/-- Adjacent-chain sortedness check for the comparator `le`. -/
def isSortedBy (le : α → α → Bool) : List α → Bool
  | [] => true
  | [_] => true
  | a :: b :: t => le a b && isSortedBy le (b :: t)

theorem insertLe_perm (le : α → α → Bool) (a : α) :
    ∀ l : List α, List.Perm (insertLe le a l) (a :: l)
  | [] => List.Perm.refl _
  | b :: t => by
    unfold insertLe
    by_cases h : le a b
    · simp [h]
    · simp only [h, if_false]
      exact ((insertLe_perm le a t).cons b).trans (List.Perm.swap a b t)

theorem sortLe_perm (le : α → α → Bool) : ∀ l : List α, List.Perm (sortLe le l) l
  | [] => List.Perm.refl _
  | a :: t => by
    unfold sortLe
    exact (insertLe_perm le a (sortLe le t)).trans ((sortLe_perm le t).cons a)

theorem pairwise_insertLe (le : α → α → Bool)
    (htot : ∀ a b, le a b = true ∨ le b a = true)
    (htrans : ∀ a b c, le a b = true → le b c = true → le a c = true) (a : α) :
    ∀ l : List α, l.Pairwise (fun x y => le x y = true) →
      (insertLe le a l).Pairwise (fun x y => le x y = true)
  | [], _ => by simp [insertLe]
  | b :: t, h => by
    obtain ⟨hbt, ht⟩ := List.pairwise_cons.mp h
    unfold insertLe
    by_cases hab : le a b
    · simp only [hab, if_true]
      refine List.pairwise_cons.mpr ⟨?_, h⟩
      intro x hx
      rcases List.mem_cons.mp hx with hx | hx
      · subst hx; exact hab
      · exact htrans a b x hab (hbt x hx)
    · have hba : le b a = true := (htot a b).resolve_left hab
      simp only [hab, if_false]
      refine List.pairwise_cons.mpr ⟨?_, pairwise_insertLe le htot htrans a t ht⟩
      intro x hx
      have hx' : x = a ∨ x ∈ t :=
        List.mem_cons.mp ((insertLe_perm le a t).mem_iff.mp hx)
      rcases hx' with hx' | hx'
      · subst hx'; exact hba
      · exact hbt x hx'

theorem pairwise_sortLe (le : α → α → Bool)
    (htot : ∀ a b, le a b = true ∨ le b a = true)
    (htrans : ∀ a b c, le a b = true → le b c = true → le a c = true) :
    ∀ l : List α, (sortLe le l).Pairwise (fun x y => le x y = true)
  | [] => List.Pairwise.nil
  | a :: t => pairwise_insertLe le htot htrans a _ (pairwise_sortLe le htot htrans t)

theorem isSortedBy_of_pairwise (le : α → α → Bool) :
    ∀ l : List α, l.Pairwise (fun x y => le x y = true) → isSortedBy le l = true
  | [], _ => rfl
  | [_], _ => rfl
  | a :: b :: t, h => by
    obtain ⟨hat, ht⟩ := List.pairwise_cons.mp h
    simp only [isSortedBy, Bool.and_eq_true]
    exact ⟨hat b (List.mem_cons_self b t), isSortedBy_of_pairwise le (b :: t) ht⟩

theorem isSortedBy_sortLe (le : α → α → Bool)
    (htot : ∀ a b, le a b = true ∨ le b a = true)
    (htrans : ∀ a b c, le a b = true → le b c = true → le a c = true)
    (l : List α) : isSortedBy le (sortLe le l) = true :=
  isSortedBy_of_pairwise le _ (pairwise_sortLe le htot htrans l)

/-- Two sorted lists that are permutations of each other and whose
elements are antisymmetric for the comparator are equal. -/
theorem sorted_perm_eq (le : α → α → Bool) :
    ∀ l₁ l₂ : List α, List.Perm l₁ l₂ →
      l₁.Pairwise (fun a b => le a b = true) →
      l₂.Pairwise (fun a b => le a b = true) →
      (∀ a ∈ l₁, ∀ b ∈ l₁, le a b = true → le b a = true → a = b) →
      l₁ = l₂
  | [], _, hp, _, _, _ => hp.nil_eq
  | a :: t₁, l₂, hp, h₁, h₂, hanti => by
    match l₂ with
    | [] => exact absurd hp.symm.nil_eq (by simp)
    | b :: t₂ =>
      have hab : a = b := by
        by_contra hne
        have ha2 : a ∈ b :: t₂ := hp.mem_iff.mp (List.mem_cons_self a t₁)
        have hb1 : b ∈ a :: t₁ := hp.mem_iff.mpr (List.mem_cons_self b t₂)
        have hat2 : a ∈ t₂ := by
          rcases List.mem_cons.mp ha2 with h | h
          · exact absurd h hne
          · exact h
        have hbt1 : b ∈ t₁ := by
          rcases List.mem_cons.mp hb1 with h | h
          · exact absurd h.symm hne
          · exact h
        have hba : le b a = true := (List.pairwise_cons.mp h₂).1 a hat2
        have hab' : le a b = true := (List.pairwise_cons.mp h₁).1 b hbt1
        exact hne (hanti a (List.mem_cons_self a t₁) b (List.mem_cons.mpr (Or.inr hbt1))
          hab' hba)
      subst hab
      have ht : t₁ = t₂ :=
        sorted_perm_eq le t₁ t₂ hp.cons_inv (List.pairwise_cons.mp h₁).2
          (List.pairwise_cons.mp h₂).2
          (fun x hx y hy => hanti x (List.mem_cons.mpr (Or.inr hx))
            y (List.mem_cons.mpr (Or.inr hy)))
      rw [ht]

/-! ## Rust-style three-way comparison

Rust's `sort_by(|a, b| key(a).cmp(&key(b)))` and
`cmp(..).then_with(..)` are modelled by `Ordering`-valued comparators.
Rust compares `String`s byte-lexicographically; the ids being compared
here are ASCII, where byte order and code-point order coincide, so the
comparison is modelled code-point-lexicographically over
`String.data`. -/

def charOrd (a b : Char) : Ordering :=
  if a.toNat < b.toNat then Ordering.lt
  else if b.toNat < a.toNat then Ordering.gt
  else Ordering.eq

def charListOrd : List Char → List Char → Ordering
  | [], [] => Ordering.eq
  | [], _ :: _ => Ordering.lt
  | _ :: _, [] => Ordering.gt
  | a :: as, b :: bs => (charOrd a b).then (charListOrd as bs)

/-- `String::cmp`. -/
def strOrd (a b : String) : Ordering :=
  charListOrd a.data b.data

/-- `usize::cmp`. -/
def natOrd (a b : Nat) : Ordering :=
  if a < b then Ordering.lt else if b < a then Ordering.gt else Ordering.eq

/-- `Ordering::then_with` on two component comparators: the pair keys
`(trip, sequence)` and `(calendar, date)`. -/
def prodOrd (ord₁ : κ₁ → κ₁ → Ordering) (ord₂ : κ₂ → κ₂ → Ordering)
    (p q : κ₁ × κ₂) : Ordering :=
  (ord₁ p.1 q.1).then (ord₂ p.2 q.2)

/-- The boolean comparator fed to the stable sort: `key(a).cmp(&key(b))
is not Greater`. -/
def ordLe (ord : κ → κ → Ordering) (k : α → κ) (a b : α) : Bool :=
  (ord (k a) (k b)).isLE

theorem ordering_then_swap (o p : Ordering) : (o.then p).swap = o.swap.then p.swap := by
  cases o <;> rfl

theorem ordering_then_eq_eq (o p : Ordering) :
    o.then p = Ordering.eq ↔ o = Ordering.eq ∧ p = Ordering.eq := by
  cases o <;> simp [Ordering.then]

theorem charOrd_lt_iff (a b : Char) : charOrd a b = Ordering.lt ↔ a.toNat < b.toNat := by
  unfold charOrd
  split_ifs <;> simp_all <;> omega

theorem charOrd_gt_iff (a b : Char) : charOrd a b = Ordering.gt ↔ b.toNat < a.toNat := by
  unfold charOrd
  split_ifs <;> simp_all <;> omega

theorem char_eq_of_toNat_eq {a b : Char} (h : a.toNat = b.toNat) : a = b :=
  Char.ext (UInt32.ext (by simpa [Char.toNat] using h))

theorem charOrd_eq_iff (a b : Char) : charOrd a b = Ordering.eq ↔ a = b := by
  constructor
  · intro h
    unfold charOrd at h
    split_ifs at h with h₁ h₂
    exact char_eq_of_toNat_eq (by omega)
  · rintro rfl
    simp [charOrd]

theorem charOrd_swap (a b : Char) : charOrd b a = (charOrd a b).swap := by
  unfold charOrd
  split_ifs <;> simp_all [Ordering.swap] <;> omega

theorem charListOrd_eq_iff : ∀ x y : List Char, charListOrd x y = Ordering.eq ↔ x = y
  | [], [] => by simp [charListOrd]
  | [], _ :: _ => by simp [charListOrd]
  | _ :: _, [] => by simp [charListOrd]
  | a :: as, b :: bs => by
    simp only [charListOrd, ordering_then_eq_eq, charOrd_eq_iff,
      charListOrd_eq_iff as bs, List.cons.injEq]

theorem charListOrd_swap : ∀ x y : List Char, charListOrd y x = (charListOrd x y).swap
  | [], [] => rfl
  | [], _ :: _ => rfl
  | _ :: _, [] => rfl
  | a :: as, b :: bs => by
    show (charOrd b a).then (charListOrd bs as) =
      ((charOrd a b).then (charListOrd as bs)).swap
    rw [charOrd_swap, charListOrd_swap as bs, ordering_then_swap]

theorem charListOrd_isLE_trans :
    ∀ x y z : List Char, (charListOrd x y).isLE = true →
      (charListOrd y z).isLE = true → (charListOrd x z).isLE = true
  | [], y, z, _, _ => by cases z <;> simp [charListOrd, Ordering.isLE]
  | _ :: _, [], _, h₁, _ => by simp [charListOrd, Ordering.isLE] at h₁
  | _ :: _, _ :: _, [], _, h₂ => by simp [charListOrd, Ordering.isLE] at h₂
  | a :: as, b :: bs, c :: cs, h₁, h₂ => by
    simp only [charListOrd] at h₁ h₂ ⊢
    rcases hab : charOrd a b with _ | _ | _ <;> rw [hab] at h₁ <;>
      rcases hbc : charOrd b c with _ | _ | _ <;> rw [hbc] at h₂
    · have h := charOrd_lt_iff a b |>.mp hab
      have h' := charOrd_lt_iff b c |>.mp hbc
      have hlt : charOrd a c = Ordering.lt := (charOrd_lt_iff a c).mpr (by omega)
      simp [hlt, Ordering.then, Ordering.isLE]
    · have hb : b = c := (charOrd_eq_iff b c).mp hbc
      subst hb
      simp [hab, Ordering.then, Ordering.isLE]
    · simp [Ordering.then, Ordering.isLE] at h₂
    · have hb : a = b := (charOrd_eq_iff a b).mp hab
      subst hb
      simp [hbc, Ordering.then, Ordering.isLE]
    · have hb : a = b := (charOrd_eq_iff a b).mp hab
      have hb' : b = c := (charOrd_eq_iff b c).mp hbc
      subst hb; subst hb'
      rw [(charOrd_eq_iff _ _).mpr rfl]
      simp only [Ordering.then] at h₁ h₂ ⊢
      exact charListOrd_isLE_trans as bs cs h₁ h₂
    · simp [Ordering.then, Ordering.isLE] at h₂
    · simp [Ordering.then, Ordering.isLE] at h₁
    · simp [Ordering.then, Ordering.isLE] at h₁
    · simp [Ordering.then, Ordering.isLE] at h₁

theorem strOrd_eq_iff (a b : String) : strOrd a b = Ordering.eq ↔ a = b := by
  unfold strOrd
  rw [charListOrd_eq_iff]
  exact ⟨fun h => congrArg String.mk h, fun h => by rw [h]⟩

theorem strOrd_swap (a b : String) : strOrd b a = (strOrd a b).swap :=
  charListOrd_swap a.data b.data

theorem strOrd_isLE_trans (a b c : String) :
    (strOrd a b).isLE = true → (strOrd b c).isLE = true → (strOrd a c).isLE = true :=
  charListOrd_isLE_trans a.data b.data c.data

theorem natOrd_eq_iff (a b : Nat) : natOrd a b = Ordering.eq ↔ a = b := by
  unfold natOrd
  split_ifs <;> simp_all <;> omega

theorem natOrd_swap (a b : Nat) : natOrd b a = (natOrd a b).swap := by
  unfold natOrd
  split_ifs <;> simp_all [Ordering.swap] <;> omega

theorem natOrd_isLE_trans (a b c : Nat) :
    (natOrd a b).isLE = true → (natOrd b c).isLE = true → (natOrd a c).isLE = true := by
  unfold natOrd
  split_ifs <;> simp_all [Ordering.isLE] <;> omega

theorem prodOrd_eq_iff (ord₁ : κ₁ → κ₁ → Ordering) (ord₂ : κ₂ → κ₂ → Ordering)
    (he₁ : ∀ a b, ord₁ a b = Ordering.eq ↔ a = b)
    (he₂ : ∀ a b, ord₂ a b = Ordering.eq ↔ a = b) (p q : κ₁ × κ₂) :
    prodOrd ord₁ ord₂ p q = Ordering.eq ↔ p = q := by
  unfold prodOrd
  rw [ordering_then_eq_eq, he₁, he₂, Prod.ext_iff]

theorem prodOrd_swap (ord₁ : κ₁ → κ₁ → Ordering) (ord₂ : κ₂ → κ₂ → Ordering)
    (hs₁ : ∀ a b, ord₁ b a = (ord₁ a b).swap)
    (hs₂ : ∀ a b, ord₂ b a = (ord₂ a b).swap) (p q : κ₁ × κ₂) :
    prodOrd ord₁ ord₂ q p = (prodOrd ord₁ ord₂ p q).swap := by
  unfold prodOrd
  rw [hs₁, hs₂, ordering_then_swap]

theorem ordering_isLE_of_swap_isLE {o : Ordering}
    (h : o.swap.isLE = true) (h' : o.isLE = true) : o = Ordering.eq := by
  cases o <;> simp_all [Ordering.swap, Ordering.isLE]

theorem prodOrd_isLE_trans (ord₁ : κ₁ → κ₁ → Ordering) (ord₂ : κ₂ → κ₂ → Ordering)
    (he₁ : ∀ a b, ord₁ a b = Ordering.eq ↔ a = b)
    (hs₁ : ∀ a b, ord₁ b a = (ord₁ a b).swap)
    (ht₁ : ∀ a b c, (ord₁ a b).isLE = true → (ord₁ b c).isLE = true →
      (ord₁ a c).isLE = true)
    (ht₂ : ∀ a b c, (ord₂ a b).isLE = true → (ord₂ b c).isLE = true →
      (ord₂ a c).isLE = true) (p q r : κ₁ × κ₂) :
    (prodOrd ord₁ ord₂ p q).isLE = true → (prodOrd ord₁ ord₂ q r).isLE = true →
      (prodOrd ord₁ ord₂ p r).isLE = true := by
  unfold prodOrd
  intro h₁ h₂
  rcases hpq : ord₁ p.1 q.1 with _ | _ | _ <;> rw [hpq] at h₁ <;>
    rcases hqr : ord₁ q.1 r.1 with _ | _ | _ <;> rw [hqr] at h₂
  · have hle : (ord₁ p.1 r.1).isLE = true :=
      ht₁ p.1 q.1 r.1 (by rw [hpq]; rfl) (by rw [hqr]; rfl)
    rcases hpr : ord₁ p.1 r.1 with _ | _ | _
    · rfl
    · have hpr' : p.1 = r.1 := (he₁ _ _).mp hpr
      rw [hpr'] at hpq
      have hgt : ord₁ q.1 r.1 = Ordering.gt := by
        rw [hs₁ r.1 q.1, hpq]; rfl
      rw [hgt] at hqr
      simp at hqr
    · rw [hpr] at hle
      simp [Ordering.isLE] at hle
  · have hqr' : q.1 = r.1 := (he₁ _ _).mp hqr
    rw [← hqr', hpq]; rfl
  · simp [Ordering.then, Ordering.isLE] at h₂
  · have hpq' : p.1 = q.1 := (he₁ _ _).mp hpq
    rw [hpq', hqr]; rfl
  · have h : p.1 = q.1 := (he₁ _ _).mp hpq
    have h' : q.1 = r.1 := (he₁ _ _).mp hqr
    simp only [Ordering.then] at h₁ h₂
    have hpr : ord₁ p.1 r.1 = Ordering.eq := (he₁ _ _).mpr (h.trans h')
    rw [hpr]
    simp only [Ordering.then]
    exact ht₂ p.2 q.2 r.2 h₁ h₂
  · simp [Ordering.then, Ordering.isLE] at h₂
  · simp [Ordering.then, Ordering.isLE] at h₁
  · simp [Ordering.then, Ordering.isLE] at h₁
  · simp [Ordering.then, Ordering.isLE] at h₁

theorem ordLe_total (ord : κ → κ → Ordering) (k : α → κ)
    (hswap : ∀ a b, ord b a = (ord a b).swap) :
    ∀ a b, ordLe ord k a b = true ∨ ordLe ord k b a = true := by
  intro a b
  unfold ordLe
  rcases h : ord (k a) (k b) with _ | _ | _
  · left; rfl
  · left; rfl
  · right; rw [hswap (k a) (k b), h]; rfl

theorem ordLe_trans (ord : κ → κ → Ordering) (k : α → κ)
    (htr : ∀ a b c, (ord a b).isLE = true → (ord b c).isLE = true →
      (ord a c).isLE = true) :
    ∀ a b c, ordLe ord k a b = true → ordLe ord k b c = true →
      ordLe ord k a c = true := by
  intro a b c h₁ h₂
  exact htr _ _ _ h₁ h₂

theorem ordLe_key_eq (ord : κ → κ → Ordering) (k : α → κ)
    (hswap : ∀ a b, ord b a = (ord a b).swap)
    (heq : ∀ a b, ord a b = Ordering.eq ↔ a = b) (a b : α)
    (hab : ordLe ord k a b = true) (hba : ordLe ord k b a = true) : k a = k b := by
  unfold ordLe at hab hba
  rw [hswap] at hba
  exact (heq _ _).mp (ordering_isLE_of_swap_isLE hba hab)

/-- `sort_by(|a, b| key(a).cmp(&key(b)))` with a `String` key. -/
def strKeyLe (k : α → String) : α → α → Bool :=
  ordLe strOrd k

/-- `sort_by` with a `(String, usize)` key compared via `then_with`. -/
def strNatKeyLe (k : α → String × Nat) : α → α → Bool :=
  ordLe (prodOrd strOrd natOrd) k

/-- `sort_by` with a `(String, String)` key compared via `then_with`. -/
def strStrKeyLe (k : α → String × String) : α → α → Bool :=
  ordLe (prodOrd strOrd strOrd) k

theorem isSortedBy_sortLe_strKey (k : α → String) (l : List α) :
    isSortedBy (strKeyLe k) (sortLe (strKeyLe k) l) = true :=
  isSortedBy_sortLe _ (ordLe_total _ _ strOrd_swap)
    (ordLe_trans _ _ strOrd_isLE_trans) l

theorem isSortedBy_sortLe_strNatKey (k : α → String × Nat) (l : List α) :
    isSortedBy (strNatKeyLe k) (sortLe (strNatKeyLe k) l) = true :=
  isSortedBy_sortLe _
    (ordLe_total _ _ (prodOrd_swap _ _ strOrd_swap natOrd_swap))
    (ordLe_trans _ _ (prodOrd_isLE_trans _ _ strOrd_eq_iff strOrd_swap
      strOrd_isLE_trans natOrd_isLE_trans)) l

theorem isSortedBy_sortLe_strStrKey (k : α → String × String) (l : List α) :
    isSortedBy (strStrKeyLe k) (sortLe (strStrKeyLe k) l) = true :=
  isSortedBy_sortLe _
    (ordLe_total _ _ (prodOrd_swap _ _ strOrd_swap strOrd_swap))
    (ordLe_trans _ _ (prodOrd_isLE_trans _ _ strOrd_eq_iff strOrd_swap
      strOrd_isLE_trans strOrd_isLE_trans)) l

/-! ## The identifier namespacer (`src/kdi/align.rs`, `src/main.rs`)

`TT` is the tier type; its `Display` impl prints the short code
(`"U"` / `"EU"`) and `to_correct_id` builds
`format!("{}_{}", tt, id)`. -/

/-- The tier type `TT` (`align.rs` lines 23-27). -/
inductive TT where
  | Urban
  | ExtraUrban
deriving DecidableEq, Repr

/-- The `Display` impl for `TT` (`align.rs` lines 29-36). -/
def TT.display : TT → String
  | TT.Urban => "U"
  | TT.ExtraUrban => "EU"

/-- `to_correct_id` (`align.rs` lines 38-40): `format!("{}_{}", tt, id)`. -/
def to_correct_id (tt : TT) (id : String) : String :=
  TT.display tt ++ "_" ++ id

theorem string_append_data (a b : String) : (a ++ b).data = a.data ++ b.data :=
  rfl

theorem to_correct_id_eq_iff_aux (t₁ : TT) (x₁ : String) (t₂ : TT) (x₂ : String) :
    to_correct_id t₁ x₁ = to_correct_id t₂ x₂ ↔ t₁ = t₂ ∧ x₁ = x₂ := by
  constructor
  · intro h
    have hd : (to_correct_id t₁ x₁).data = (to_correct_id t₂ x₂).data := by rw [h]
    cases t₁ <;> cases t₂ <;>
      simp only [to_correct_id, TT.display, string_append_data] at hd
    · refine ⟨rfl, ?_⟩
      have hdd : x₁.data = x₂.data := by
        have h2 : ('U' :: '_' :: x₁.data) = ('U' :: '_' :: x₂.data) := hd
        simpa using h2
      exact congrArg String.mk hdd
    · exact absurd hd (by simp [String.data])
    · exact absurd hd (by simp [String.data])
    · refine ⟨rfl, ?_⟩
      have hdd : x₁.data = x₂.data := by
        have h2 : ('E' :: 'U' :: '_' :: x₁.data) = ('E' :: 'U' :: '_' :: x₂.data) := hd
        simpa using h2
      exact congrArg String.mk hdd
  · rintro ⟨rfl, rfl⟩
    rfl

/-! ## Source vocabularies (external `gtfs_structures` crate, §6 of the
spec: already-decoded inputs).  Only the variant inventory matters; the
numeric "unknown" payloads are carried as `Int`. -/

inductive RouteType where
  | Tramway
  | Subway
  | Rail
  | Bus
  | Ferry
  | CableCar
  | Gondola
  | Funicular
  | Coach
  | Air
  | Taxi
  | Other (code : Int)
deriving DecidableEq, Repr

inductive Availability where
  | InformationNotAvailable
  | Available
  | NotAvailable
  | Unknown (code : Int)
deriving DecidableEq, Repr

inductive BikesAllowedType where
  | NoBikeInfo
  | AtLeastOneBike
  | NoBikesAllowed
  | Unknown (code : Int)
deriving DecidableEq, Repr

inductive DirectionType where
  | Outbound
  | Inbound
deriving DecidableEq, Repr

inductive Exception where
  | Added
  | Deleted
deriving DecidableEq, Repr

/-! ## Closed domain enumerations (`src/kdi/enums.rs`) -/

inductive KdiSupportedEnum where
  | Unknown
  | Supported
  | NotSupported
deriving DecidableEq, Repr

inductive KdiDirectionEnum where
  | Outbound
  | Inbound
deriving DecidableEq, Repr

inductive KdiExceptionEnum where
  | Added
  | Removed
deriving DecidableEq, Repr

inductive KdiTransportEnum where
  | Rail
  | Bus
  | CableCar
deriving DecidableEq, Repr

inductive KdiFareEnum where
  | Cash
  | Cartascalare
  | Mobile
deriving DecidableEq, Repr

inductive KdiCurrencyEnum where
  | EUR
deriving DecidableEq, Repr

inductive KdiPaymentEnum where
  | OnBoard
  | BeforeBoarding
deriving DecidableEq, Repr

/-- `KdiParkingStopEnum` as used by the parking-stop builders in
`align.rs` (variants `CarSharing`, `BikeSharing`, `BikeParking`,
`Taxi`). -/
inductive KdiParkingStopEnum where
  | CarSharing
  | BikeSharing
  | BikeParking
  | Taxi
deriving DecidableEq, Repr

/-- `impl From<RouteType> for KdiTransportEnum` (`enums.rs` lines
115-124): the wildcard arm is `panic!`, modelled as `none`. -/
def kdiTransportFromRouteType : RouteType → Option KdiTransportEnum
  | RouteType.Rail => some KdiTransportEnum.Rail
  | RouteType.Bus => some KdiTransportEnum.Bus
  | RouteType.CableCar => some KdiTransportEnum.CableCar
  | _ => none

/-- `impl From<Availability> for KdiSupportedEnum` (`enums.rs` lines
55-63): total, wildcard arm maps to `Unknown`. -/
def kdiSupportedFromAvailability : Availability → KdiSupportedEnum
  | Availability.Available => KdiSupportedEnum.Supported
  | Availability.NotAvailable => KdiSupportedEnum.NotSupported
  | _ => KdiSupportedEnum.Unknown

/-- `impl From<BikesAllowedType> for KdiSupportedEnum` (`enums.rs`
lines 65-73): total, wildcard arm maps to `Unknown`. -/
def kdiSupportedFromBikesAllowed : BikesAllowedType → KdiSupportedEnum
  | BikesAllowedType.AtLeastOneBike => KdiSupportedEnum.Supported
  | BikesAllowedType.NoBikesAllowed => KdiSupportedEnum.NotSupported
  | _ => KdiSupportedEnum.Unknown

/-- `impl From<DirectionType> for KdiDirectionEnum` (`enums.rs` lines
82-89): total. -/
def kdiDirectionFromDirectionType : DirectionType → KdiDirectionEnum
  | DirectionType.Outbound => KdiDirectionEnum.Outbound
  | DirectionType.Inbound => KdiDirectionEnum.Inbound

/-- `impl From<Exception> for KdiExceptionEnum` (`enums.rs` lines
98-105): total. -/
def kdiExceptionFromException : Exception → KdiExceptionEnum
  | Exception.Added => KdiExceptionEnum.Added
  | Exception.Deleted => KdiExceptionEnum.Removed

/-! ## Carried floating-point values

The core never computes with `f64` values: latitudes, longitudes and
prices are parsed by external collaborators (serde / `str::parse`) and
carried through unchanged.  They are modelled opaquely by the raw
source text; numeric parse failure of a malformed literal is an
external-collaborator concern (spec §6) and is not modelled. -/

structure F64 where
  raw : String
deriving DecidableEq, Repr

def parseF64 (s : String) : F64 := ⟨s⟩

/-! ## Date/time formatting (`chrono` formatting with
`"%Y-%m-%dT%H:%M:%S"`, as used throughout `align.rs` / `main.rs`) -/

/-- Left-pad a decimal numeral with zeros to width `w`. -/
def padZeros (w : Nat) (n : Nat) : String :=
  let s := toString n
  String.mk (List.replicate (w - s.length) '0') ++ s

/-- `NaiveDate::from_ymd(y, m, d).and_time(NaiveTime)` formatted with
`"%Y-%m-%dT%H:%M:%S"`. -/
def fmtDateTime (y m d hh mm ss : Nat) : String :=
  padZeros 4 y ++ "-" ++ padZeros 2 m ++ "-" ++ padZeros 2 d ++ "T" ++
    padZeros 2 hh ++ ":" ++ padZeros 2 mm ++ ":" ++ padZeros 2 ss

/-- A `chrono::NaiveDate` as carried by the parsed GTFS records
(years in GTFS data are positive). -/
structure NDate where
  y : Nat
  m : Nat
  d : Nat
deriving DecidableEq, Repr

/-- `date.and_time(NaiveTime::from_hms(0, 0, 0)).format("%Y-%m-%dT%H:%M:%S")`. -/
def fmtDateMidnight (dt : NDate) : String :=
  fmtDateTime dt.y dt.m dt.d 0 0 0

/-- The stop-time timestamp decode of `align_stop_time` (`align.rs`
lines 628-639) and `align_stop_times` (`main.rs` lines 414-433):
`NaiveDate::from_ymd(0, 1, 1 + time / 86_400)
  .and_time(NaiveTime::from_num_seconds_from_midnight(time % 86_400, 0))
  .format("%Y-%m-%dT%H:%M:%S")`.
`NaiveDate::from_ymd(0, 1, d)` panics unless `1 ≤ d ≤ 31` (January of
year 0 has 31 days); the panic is modelled as `none`. -/
def decodeStopTime (time : Nat) : Option String :=
  if 1 + time / 86400 ≤ 31 then
    some (fmtDateTime 0 1 (1 + time / 86400)
      (time % 86400 / 3600) (time % 86400 % 3600 / 60) (time % 86400 % 60))
  else
    none

/-- `stop_time.arrival_time.map(|time| ...)` with a panicking decode
inside the closure: an absent value stays absent, a present value is
decoded and a decode panic aborts the builder. -/
def decodeOptTime : Option Nat → Option (Option String)
  | none => some none
  | some t => (decodeStopTime t).map some

/-- Option-valued traversal: the model of a Rust loop whose body can
panic or propagate an error (`?`). -/
def mapOpt (f : α → Option β) : List α → Option (List β)
  | [] => some []
  | a :: t =>
    match f a, mapOpt f t with
    | some b, some bs => some (b :: bs)
    | _, _ => none

theorem mapOpt_mem (f : α → Option β) :
    ∀ l out, mapOpt f l = some out → ∀ b ∈ out, ∃ a ∈ l, f a = some b
  | [], out, h => by
    simp [mapOpt] at h
    subst h
    intro b hb
    exact absurd hb (by simp)
  | a :: t, out, h => by
    intro b hb
    simp only [mapOpt] at h
    match hfa : f a, hft : mapOpt f t with
    | some b', some bs =>
      rw [hfa, hft] at h
      have hout : out = b' :: bs := by
        simpa using h.symm
      subst hout
      rcases List.mem_cons.mp hb with hb | hb
      · exact ⟨a, List.mem_cons_self a t, by rw [hfa, hb]⟩
      · obtain ⟨x, hx, hfx⟩ := mapOpt_mem f t bs hft b hb
        exact ⟨x, List.mem_cons.mpr (Or.inr hx), hfx⟩
    | some _, none => rw [hfa, hft] at h; exact absurd h (by simp)
    | none, _ => rw [hfa] at h; exact absurd h (by simp)

/-! ## Source record shapes (external collaborators, spec §6) -/

/-- A parsed GTFS stop (`gtfs_structures::Stop`, fields used by
`align.rs` / `main.rs`). -/
structure GStop where
  id : String
  name : String
  latitude : Option F64
  longitude : Option F64
  zone_id : Option String
  wheelchair_boarding : Availability
deriving DecidableEq, Repr

/-- A parsed GTFS stop-time nested in its trip
(`gtfs_structures::StopTime`). -/
structure GStopTime where
  stop : GStop
  arrival_time : Option Nat
  departure_time : Option Nat
  stop_sequence : Nat
deriving DecidableEq, Repr

/-- A parsed GTFS trip (`gtfs_structures::Trip`). -/
structure GTrip where
  id : String
  route_id : String
  service_id : String
  trip_headsign : Option String
  direction_id : Option DirectionType
  wheelchair_accessible : Availability
  bikes_allowed : BikesAllowedType
  stop_times : List GStopTime
deriving DecidableEq, Repr

/-- A parsed GTFS route (`gtfs_structures::Route`). -/
structure GRoute where
  id : String
  agency_id : Option String
  short_name : String
  long_name : String
  route_type : RouteType
deriving DecidableEq, Repr

/-- A parsed GTFS agency (`gtfs_structures::Agency`, fields used by
`main.rs`). -/
structure GAgency where
  id : Option String
  name : String
  phone : Option String
  url : String
deriving DecidableEq, Repr

/-- A parsed GTFS calendar row (`gtfs_structures::Calendar`). -/
structure GCalendar where
  id : String
  start_date : NDate
  end_date : NDate
  monday : Bool
  tuesday : Bool
  wednesday : Bool
  thursday : Bool
  friday : Bool
  saturday : Bool
  sunday : Bool
deriving DecidableEq, Repr

/-- A parsed GTFS calendar-date row (`gtfs_structures::CalendarDate`). -/
structure GCalendarDate where
  service_id : String
  date : NDate
  exception_type : Exception
deriving DecidableEq, Repr

/-- A named key/value pair of a KML placemark (`src/kdi/kml.rs`,
`SimpleData`). -/
structure SimpleData where
  name : String
  value : String
deriving DecidableEq, Repr

/-- A KML placemark (`src/kdi/kml.rs`): a coordinate string plus the
named fields.  The intermediate `Document`/`Folder`/`Point` nesting
carries no further data used by the builders. -/
structure Placemark where
  coordinates : String
  simple_datas : List SimpleData
deriving DecidableEq, Repr

/-- A bike-sharing feed record (`src/kdi/json.rs`, `BikeSharing`). -/
structure BikeSharing where
  id : String
  name : String
  address : String
  bikes : Nat
  slots : Nat
  total_slots : Nat
  position : List F64
deriving DecidableEq, Repr

/-- A parsed fare-zone CSV row (`KdiZone` in `align_location_zone`,
`align.rs` lines 47-57). -/
structure KdiZone where
  id : String
  name : String
  latitude : F64
  longitude : F64
deriving DecidableEq, Repr

/-- A raw fare-rule CSV row before serde defaulting: `ORIGIN_ID` and
`DESTINATION_ID` columns may be absent. -/
structure FareRuleRow where
  fare_id : String
  origin : Option String
  destination : Option String
deriving DecidableEq, Repr

/-- `kdi_fare_rule_default` (`structs.rs` lines 91-93). -/
def kdi_fare_rule_default : String := "0001"

/-- The deserialized `KdiFareRule` (`structs.rs` lines 74-89): serde
fills an absent origin/destination with `kdi_fare_rule_default`. -/
structure KdiFareRuleRow where
  fare_id : String
  origin : String
  destination : String
deriving DecidableEq, Repr

/-- Serde deserialization of one fare-rule CSV row into
`KdiFareRule` (`structs.rs`): the `default = "kdi_fare_rule_default"`
attribute substitutes `"0001"` for an absent column. -/
def deserializeFareRule (row : FareRuleRow) : KdiFareRuleRow :=
  { fare_id := row.fare_id
    origin := row.origin.getD kdi_fare_rule_default
    destination := row.destination.getD kdi_fare_rule_default }

/-- A parsed fare-attributes CSV row / emitted fare record
(`KdiFare`, `structs.rs` lines 18-34; `ftype` is skipped during
deserialization and defaults to `Cash`). -/
structure KdiFare where
  id : String
  price : F64
  currency : KdiCurrencyEnum
  ftype : KdiFareEnum
  payment : KdiPaymentEnum
  duration : Nat
deriving DecidableEq, Repr

/-! ## Emitted entity shapes (fields as constructed in
`src/kdi/align.rs`; the `structs.rs` in this tree is from an older
snapshot and differs in some field names) -/

structure KdiLocation where
  id : String
  name : String
  latitude : F64
  longitude : F64
deriving DecidableEq, Repr

structure KdiCalendarException where
  id : String
  calendar : String
  date : String
  exception : KdiExceptionEnum
deriving DecidableEq, Repr

structure KdiCalendar where
  id : String
  start_date : String
  end_date : String
  monday : Bool
  tuesday : Bool
  wednesday : Bool
  thursday : Bool
  friday : Bool
  saturday : Bool
  sunday : Bool
deriving DecidableEq, Repr

structure KdiFareRule where
  id : String
  fare : String
  origin : String
  destination : String
deriving DecidableEq, Repr

structure KdiParkingStop where
  id : String
  location : String
  ptype : KdiParkingStopEnum
  address : String
  total_slots : Nat
deriving DecidableEq, Repr

structure KdiBikeSharingStop where
  id : String
  location : String
  ptype : KdiParkingStopEnum
  address : String
  total_slots : Nat
  free_slots : Nat
  bikes : Nat
deriving DecidableEq, Repr

structure KdiPublicTransportStop where
  id : String
  location : String
  zone : Option String
  ptype : List KdiTransportEnum
  weelchair : KdiSupportedEnum
deriving DecidableEq, Repr

structure KdiStopTime where
  id : String
  trip : String
  stop : String
  arrival : Option String
  departure : Option String
  sequence : Nat
deriving DecidableEq, Repr

structure KdiTrip where
  id : String
  route : String
  calendar : String
  name : String
  direction : KdiDirectionEnum
  weelchair : KdiSupportedEnum
  bike : KdiSupportedEnum
deriving DecidableEq, Repr

structure KdiRoute where
  id : String
  agency : String
  short_name : String
  long_name : String
  transport : KdiTransportEnum
deriving DecidableEq, Repr

/-! ## Entity builders (`src/kdi/align.rs`)

Each builder consumes the flattened iteration sequence of its source
collection, appends to the accumulator it is given, and (except for the
two bike-sharing builders) sorts the accumulator before returning.
Builders whose loop body can panic return `Option`. -/

/-- `align_location_zone` (`align.rs` lines 42-86). -/
def align_location_zone (tt : TT) (zones : List KdiZone)
    (locations : List KdiLocation) : List KdiLocation :=
  sortLe (strKeyLe KdiLocation.id)
    (locations ++ zones.map fun z =>
      { id := "ZONE_" ++ to_correct_id tt z.id
        name := z.name
        latitude := z.latitude
        longitude := z.longitude })

/-- `align_location_public_transport_stop` (`align.rs` lines 88-105);
`stop.latitude.unwrap()` / `stop.longitude.unwrap()` panic on an absent
coordinate. -/
def align_location_public_transport_stop (tt : TT) (stops : List GStop)
    (locations : List KdiLocation) : Option (List KdiLocation) :=
  (mapOpt (fun s =>
    match s.latitude, s.longitude with
    | some la, some lo =>
      some { id := to_correct_id tt s.id, name := s.name
             latitude := la, longitude := lo }
    | _, _ => none) stops).map fun new =>
    sortLe (strKeyLe KdiLocation.id) (locations ++ new)

/-- The coordinate handling shared by the KML location builders:
`placemark.point.coordinates.split(',')` parsed as `f64`s with
`assert!(coordinate.len() == 2)`; `latitude = coordinate[1]`,
`longitude = coordinate[0]`. -/
def splitOnComma : List Char → List (List Char)
  | [] => [[]]
  | a :: t =>
    let r := splitOnComma t
    if a = ',' then [] :: r
    else
      match r with
      | h :: t' => (a :: h) :: t'
      | [] => [[a]]

/-- `str::split(',')` (kernel-reducible model over `String.data`). -/
def splitComma (s : String) : List String :=
  (splitOnComma s.data).map String.mk

def kmlCoord (p : Placemark) : Option (F64 × F64) :=
  match splitComma p.coordinates with
  | [lon, lat] => some (parseF64 lon, parseF64 lat)
  | _ => none

/-- The common shape of the four KML location builders
(`align_location_car_sharing`, `align_location_centro_in_bici`,
`align_location_parcheggio_protetto_biciclette`,
`align_location_taxi`, `align.rs` lines 107-219): they differ only in
the id prefix and the looked-up name field.  The id suffix is the
enumeration index; `datas.find(..).unwrap()` panics on a missing
field. -/
def alignLocationKml (pfx : String) (fieldName : String)
    (placemarks : List Placemark) (locations : List KdiLocation) :
    Option (List KdiLocation) :=
  (mapOpt (fun (ip : Nat × Placemark) => do
    let c ← kmlCoord ip.2
    let d ← ip.2.simple_datas.find? (fun d => d.name == fieldName)
    some { id := pfx ++ toString ip.1, name := d.value
           latitude := c.2, longitude := c.1 }) placemarks.enum).map fun new =>
    sortLe (strKeyLe KdiLocation.id) (locations ++ new)

/-- `align_location_car_sharing` (`align.rs` lines 107-132). -/
def align_location_car_sharing : List Placemark → List KdiLocation →
    Option (List KdiLocation) :=
  alignLocationKml "CS_" "nomepos"

/-- `align_location_centro_in_bici` (`align.rs` lines 134-159). -/
def align_location_centro_in_bici : List Placemark → List KdiLocation →
    Option (List KdiLocation) :=
  alignLocationKml "CIB_" "desc"

/-- `align_location_parcheggio_protetto_biciclette` (`align.rs` lines
161-192). -/
def align_location_parcheggio_protetto_biciclette :
    List Placemark → List KdiLocation → Option (List KdiLocation) :=
  alignLocationKml "PPB_" "park"

/-- `align_location_taxi` (`align.rs` lines 194-219). -/
def align_location_taxi : List Placemark → List KdiLocation →
    Option (List KdiLocation) :=
  alignLocationKml "TX_" "nome"

/-- `align_location_bike_sharing` (`align.rs` lines 221-236):
`assert!(bs.position.len() == 2)`, `latitude = position[0]`,
`longitude = position[1]`.  This builder performs no sort. -/
def align_location_bike_sharing (bike_sharing : List BikeSharing)
    (locations : List KdiLocation) : Option (List KdiLocation) :=
  (mapOpt (fun bs =>
    match bs.position with
    | [p0, p1] =>
      some { id := "BS_" ++ bs.id, name := bs.name
             latitude := p0, longitude := p1 }
    | _ => none) bike_sharing).map fun new => locations ++ new

/-- `align_calendar_exception` (`align.rs` lines 238-265): each record
gets the running index (starting from the accumulator length) as its
`id`, and the merged accumulator is sorted by that stringified `id`. -/
def align_calendar_exception (tt : TT) (calendar_dates : List GCalendarDate)
    (calendar_exceptions : List KdiCalendarException) :
    List KdiCalendarException :=
  sortLe (strKeyLe KdiCalendarException.id)
    (calendar_exceptions ++ calendar_dates.enum.map fun (icd : Nat × GCalendarDate) =>
      { id := toString (calendar_exceptions.length + icd.1)
        calendar := to_correct_id tt icd.2.service_id
        date := fmtDateMidnight icd.2.date
        exception := kdiExceptionFromException icd.2.exception_type })

/-- `align_calendar` (`align.rs` lines 267-298). -/
def align_calendar (tt : TT) (calendar : List GCalendar)
    (calendars : List KdiCalendar) : List KdiCalendar :=
  sortLe (strKeyLe KdiCalendar.id)
    (calendars ++ calendar.map fun c =>
      { id := to_correct_id tt c.id
        start_date := fmtDateMidnight c.start_date
        end_date := fmtDateMidnight c.end_date
        monday := c.monday, tuesday := c.tuesday, wednesday := c.wednesday
        thursday := c.thursday, friday := c.friday, saturday := c.saturday
        sunday := c.sunday })

/-- The per-row record construction of `align_fare_rule` (`align.rs`
lines 333-388), applied to a deserialized row. -/
def fareRuleRecord (tt : TT) (r : KdiFareRuleRow) : KdiFareRule :=
  { id := to_correct_id tt r.fare_id ++ "_" ++
      ("ZONE_" ++ to_correct_id tt r.origin) ++ "_" ++
      ("ZONE_" ++ to_correct_id tt r.destination)
    fare := to_correct_id tt r.fare_id
    origin := "ZONE_" ++ to_correct_id tt r.origin
    destination := "ZONE_" ++ to_correct_id tt r.destination }

/-- `align_fare_rule` (`align.rs` lines 300-393): three channel tables
(cash, cartascalare, mobile) are appended in that order, then the
accumulator is sorted by the `fare` field alone. -/
def align_fare_rule (tt : TT) (cash cartascalare mobile : List FareRuleRow)
    (fare_rules : List KdiFareRule) : List KdiFareRule :=
  sortLe (strKeyLe KdiFareRule.fare)
    (fare_rules ++
      cash.map (fun r => fareRuleRecord tt (deserializeFareRule r)) ++
      cartascalare.map (fun r => fareRuleRecord tt (deserializeFareRule r)) ++
      mobile.map (fun r => fareRuleRecord tt (deserializeFareRule r)))

/-- The common shape of the three KML parking-stop builders that read
their slot count from a named field (`align_parking_stop_car_sharing`:
address `"via"`, slots `"auto"`; `align_parking_stop_centro_in_bici`:
`"desc"` / `"cicloposteggi"`; `align_parking_stop_parcheggio_protetto_biciclette`:
`"via"` / `"posti"`; `align.rs` lines 395-466).  The slot field value is
parsed as `usize` (`.parse()?`). -/
def alignParkingKml (pfx : String) (ptype : KdiParkingStopEnum)
    (addressField slotsField : String) (placemarks : List Placemark)
    (parking_stops : List KdiParkingStop) : Option (List KdiParkingStop) :=
  (mapOpt (fun (ip : Nat × Placemark) => do
    let a ← ip.2.simple_datas.find? (fun d => d.name == addressField)
    let sfield ← ip.2.simple_datas.find? (fun d => d.name == slotsField)
    let n ← sfield.value.toNat?
    some { id := pfx ++ toString ip.1, location := pfx ++ toString ip.1
           ptype := ptype, address := a.value
           total_slots := n }) placemarks.enum).map fun new =>
    sortLe (strKeyLe KdiParkingStop.location) (parking_stops ++ new)

/-- `align_parking_stop_car_sharing` (`align.rs` lines 395-414). -/
def align_parking_stop_car_sharing :
    List Placemark → List KdiParkingStop → Option (List KdiParkingStop) :=
  alignParkingKml "CS_" KdiParkingStopEnum.CarSharing "via" "auto"

/-- `align_parking_stop_centro_in_bici` (`align.rs` lines 416-439). -/
def align_parking_stop_centro_in_bici :
    List Placemark → List KdiParkingStop → Option (List KdiParkingStop) :=
  alignParkingKml "CIB_" KdiParkingStopEnum.BikeSharing "desc" "cicloposteggi"

/-- `align_parking_stop_parcheggio_protetto_biciclette` (`align.rs`
lines 441-466). -/
def align_parking_stop_parcheggio_protetto_biciclette :
    List Placemark → List KdiParkingStop → Option (List KdiParkingStop) :=
  alignParkingKml "PPB_" KdiParkingStopEnum.BikeParking "via" "posti"

/-- `align_parking_stop_taxi` (`align.rs` lines 468-487): the address
comes from the `"indirizzo"` field and `total_slots` is the constant
`1`. -/
def align_parking_stop_taxi (taxi : List Placemark)
    (parking_stops : List KdiParkingStop) : Option (List KdiParkingStop) :=
  (mapOpt (fun (ip : Nat × Placemark) => do
    let a ← ip.2.simple_datas.find? (fun d => d.name == "indirizzo")
    some { id := "TX_" ++ toString ip.1, location := "TX_" ++ toString ip.1
           ptype := KdiParkingStopEnum.Taxi, address := a.value
           total_slots := 1 }) taxi.enum).map fun new =>
    sortLe (strKeyLe KdiParkingStop.location) (parking_stops ++ new)

/-- `align_fare` (`align.rs` lines 489-564): three channel tables, the
channel is stamped into `ftype` at build time, and the accumulator is
sorted by `id`. -/
def align_fare (tt : TT) (cash cartascalare mobile : List KdiFare)
    (fares : List KdiFare) : List KdiFare :=
  sortLe (strKeyLe KdiFare.id)
    (fares ++
      cash.map (fun f => { f with id := to_correct_id tt f.id
                                  ftype := KdiFareEnum.Cash }) ++
      cartascalare.map (fun f => { f with id := to_correct_id tt f.id
                                          ftype := KdiFareEnum.Cartascalare }) ++
      mobile.map (fun f => { f with id := to_correct_id tt f.id
                                    ftype := KdiFareEnum.Mobile }))

/-- `align_bike_sharing_stop` (`align.rs` lines 566-584):
`assert!(bs.position.len() == 2)`; no sort is performed. -/
def align_bike_sharing_stop (bike_sharing : List BikeSharing)
    (bike_sharing_stops : List KdiBikeSharingStop) :
    Option (List KdiBikeSharingStop) :=
  (mapOpt (fun bs =>
    match bs.position with
    | [_, _] =>
      some { id := "BS_" ++ bs.id, location := "BS_" ++ bs.id
             ptype := KdiParkingStopEnum.BikeSharing, address := bs.address
             total_slots := bs.total_slots, free_slots := bs.slots
             bikes := bs.bikes }
    | _ => none) bike_sharing).map fun new => bike_sharing_stops ++ new

/-- `align_public_transport_stop` (`align.rs` lines 586-611). -/
def align_public_transport_stop (tt : TT) (stops : List GStop)
    (public_transport_stops : List KdiPublicTransportStop) :
    List KdiPublicTransportStop :=
  sortLe (strKeyLe KdiPublicTransportStop.location)
    (public_transport_stops ++ stops.map fun s =>
      { id := to_correct_id tt s.id
        location := to_correct_id tt s.id
        zone := s.zone_id.map fun z => "ZONE_" ++ to_correct_id tt z
        ptype := []
        weelchair := kdiSupportedFromAvailability s.wheelchair_boarding })

/-- `align_stop_time` (`align.rs` lines 613-652): the merged
accumulator is sorted by `(trip, sequence)`. -/
def align_stop_time (tt : TT) (trips : List GTrip)
    (stop_times : List KdiStopTime) : Option (List KdiStopTime) :=
  (mapOpt (fun (tst : GTrip × GStopTime) => do
    let a ← decodeOptTime tst.2.arrival_time
    let d ← decodeOptTime tst.2.departure_time
    some { id := to_correct_id tt tst.1.id ++ "_" ++ to_correct_id tt tst.2.stop.id
           trip := to_correct_id tt tst.1.id
           stop := to_correct_id tt tst.2.stop.id
           arrival := a, departure := d
           sequence := tst.2.stop_sequence })
    (trips.flatMap fun t => t.stop_times.map fun st => (t, st))).map fun new =>
    sortLe (strNatKeyLe fun r => (r.trip, r.sequence)) (stop_times ++ new)

/-- `align_trip` (`align.rs` lines 654-674): `trip_headsign` and
`direction_id` are unwrapped. -/
def align_trip (tt : TT) (trips : List GTrip)
    (acc : List KdiTrip) : Option (List KdiTrip) :=
  (mapOpt (fun t =>
    match t.trip_headsign, t.direction_id with
    | some nm, some dir =>
      some { id := to_correct_id tt t.id
             route := to_correct_id tt t.route_id
             calendar := to_correct_id tt t.service_id
             name := nm
             direction := kdiDirectionFromDirectionType dir
             weelchair := kdiSupportedFromAvailability t.wheelchair_accessible
             bike := kdiSupportedFromBikesAllowed t.bikes_allowed }
    | _, _ => none) trips).map fun new =>
    sortLe (strKeyLe KdiTrip.id) (acc ++ new)

/-- `align_route` (`align.rs` lines 676-694): `agency_id` is unwrapped
and an unmapped route type panics. -/
def align_route (tt : TT) (routes : List GRoute)
    (acc : List KdiRoute) : Option (List KdiRoute) :=
  (mapOpt (fun r => do
    let ag ← r.agency_id
    let tr ← kdiTransportFromRouteType r.route_type
    some { id := to_correct_id tt r.id
           agency := ag
           short_name := r.short_name
           long_name := r.long_name
           transport := tr }) routes).map fun new =>
    sortLe (strKeyLe KdiRoute.id) (acc ++ new)

/-! ## The `main.rs` snapshot (`src/main.rs`, `src/kdigtfs.rs`) -/

/-- The emitted calendar exception of the `main.rs` snapshot
(`kdigtfs.rs` `KdiCalendarException`): no `id` field. -/
structure MainCalendarException where
  calendar_id : String
  date : String
  exception : KdiExceptionEnum
deriving DecidableEq, Repr

/-- The per-record construction of `align_calendar_dates` (`main.rs`
lines 359-370). -/
def mainCalendarDateRecord (tt : TT) (cd : GCalendarDate) :
    MainCalendarException :=
  { calendar_id := to_correct_id tt cd.service_id
    date := fmtDateMidnight cd.date
    exception := kdiExceptionFromException cd.exception_type }

/-- `align_calendar_dates` (`main.rs` lines 354-380): sorted by
`(calendar_id, date)`. -/
def align_calendar_dates (tt : TT) (calendar_dates : List GCalendarDate)
    (calendars_exception : List MainCalendarException) :
    List MainCalendarException :=
  sortLe (strStrKeyLe fun r => (r.calendar_id, r.date))
    (calendars_exception ++ calendar_dates.map (mainCalendarDateRecord tt))

/-- The emitted agency record (`kdigtfs.rs` `KdiAgency`). -/
structure KdiAgency where
  id : String
  name : String
  email : String
  phone : String
  url : String
deriving DecidableEq, Repr

/-- The agency step of `main` (`main.rs` lines 73-91):
`assert!(gtfs_extraurban.agencies.len() == 1)`,
`assert!(gtfs_urban.agencies.len() == 1)`, then the single record is
built from `gtfs_extraurban.agencies.first()`, with a hard-coded
email; `id` and `phone` are unwrapped. -/
def buildAgency (extraurbanAgencies urbanAgencies : List GAgency) :
    Option KdiAgency :=
  if extraurbanAgencies.length = 1 ∧ urbanAgencies.length = 1 then
    match extraurbanAgencies with
    | [a] =>
      match a.id, a.phone with
      | some i, some p =>
        some { id := i, name := a.name, email := "info@trentinotrasporti.it"
               phone := p, url := a.url }
      | _, _ => none
    | _ => none
  else
    none

/-- The emitted fare rule of the `main.rs` snapshot (`kdigtfs.rs`
`KdiFareRule`): `origin_id` / `destination_id` are optional columns
with no serde default. -/
structure MainFareRule where
  fare_id : String
  origin_id : Option String
  destination_id : Option String
deriving DecidableEq, Repr

/-- The per-row transformation of `align_fare_rules` (`main.rs` lines
582-596): the fare id is namespaced, and origin/destination are
namespaced only when present — an absent column stays absent, no
sentinel is substituted. -/
def mainFareRuleRecord (tt : TT) (r : FareRuleRow) : MainFareRule :=
  { fare_id := to_correct_id tt r.fare_id
    origin_id := r.origin.map fun o => "ZONE_" ++ to_correct_id tt o
    destination_id := r.destination.map fun d => "ZONE_" ++ to_correct_id tt d }

/-- `align_fare_rules` (`main.rs` lines 549-633): three channel tables,
sorted by `fare_id`. -/
def align_fare_rules (tt : TT) (cash cartascalare mobile : List FareRuleRow)
    (fare_rules : List MainFareRule) : List MainFareRule :=
  sortLe (strKeyLe MainFareRule.fare_id)
    (fare_rules ++
      cash.map (mainFareRuleRecord tt) ++
      cartascalare.map (mainFareRuleRecord tt) ++
      mobile.map (mainFareRuleRecord tt))


/-! ## Helper lemmas for the claims -/

theorem mapOpt_map_eq (f : α → Option β) (g : β → γ) (hfun : α → γ)
    (hc : ∀ a b, f a = some b → g b = hfun a) :
    ∀ l out, mapOpt f l = some out → out.map g = l.map hfun
  | [], out, hm => by
    simp [mapOpt] at hm
    subst hm
    rfl
  | a :: t, out, hm => by
    simp only [mapOpt] at hm
    match hfa : f a, hft : mapOpt f t with
    | some b, some bs =>
      rw [hfa, hft] at hm
      have hout : out = b :: bs := by simpa using hm.symm
      subst hout
      simp [hc a b hfa, mapOpt_map_eq f g hfun hc t bs hft]
    | some _, none => rw [hfa, hft] at hm; exact absurd hm (by simp)
    | none, _ => rw [hfa] at hm; exact absurd hm (by simp)

/-! ## Sample data used by counterexamples and witnesses -/

def cdA : GCalendarDate := ⟨"A", ⟨2021, 1, 1⟩, Exception.Added⟩

def cdB : GCalendarDate := ⟨"B", ⟨2021, 1, 2⟩, Exception.Deleted⟩

def bsX : BikeSharing := ⟨"2", "N2", "addr2", 1, 1, 5, [⟨"46.1"⟩, ⟨"11.1"⟩]⟩

def bsY : BikeSharing := ⟨"1", "N1", "addr1", 2, 2, 6, [⟨"46.2"⟩, ⟨"11.2"⟩]⟩

def pmTaxi : Placemark := ⟨"11.12,46.07", [⟨"nome", "T1"⟩, ⟨"indirizzo", "Via Roma 1"⟩]⟩

def taxiRec : KdiParkingStop :=
  ⟨"TX_0", "TX_0", KdiParkingStopEnum.Taxi, "Via Roma 1", 1⟩

def agEU : GAgency := ⟨some "AEU", "ExtraUrbanAgency", some "111", "eu.example"⟩

def agU : GAgency := ⟨some "AU", "UrbanAgency", some "000", "u.example"⟩

def frRow : FareRuleRow := ⟨"F1", none, none⟩

/-! ## The claims -/

/-- C1: the identifier namespacer is collision-free: two `(tier, rawId)`
pairs produce the same canonical id (short tier code, separator `_`,
raw id) exactly when they are the same pair; in particular
`to_correct_id` is injective and `namespace(Urban, x)` always differs
from `namespace(ExtraUrban, x)`. -/
theorem C1_namespacer_injective (t₁ : TT) (x₁ : String) (t₂ : TT) (x₂ : String) :
    to_correct_id t₁ x₁ = to_correct_id t₂ x₂ ↔ t₁ = t₂ ∧ x₁ = x₂ :=
  to_correct_id_eq_iff_aux t₁ x₁ t₂ x₂

/-- C9: the stop-time timestamp decode is partial beyond one month of
service days: it aborts exactly when the materialized day-of-month
`1 + s / 86400` of January of year 0 exceeds 31, that is when
`s ≥ 2678400`; below that bound it never aborts. -/
theorem C9_decode_partial_beyond_month (s : Nat) :
    decodeStopTime s = none ↔ 2678400 ≤ s := by
  unfold decodeStopTime
  by_cases h : 1 + s / 86400 ≤ 31
  · simp only [h, if_true]
    constructor
    · intro hc
      exact absurd hc (by simp)
    · intro hs
      omega
  · simp only [h, if_false]
    constructor
    · intro _
      omega
    · intro _
      trivial

/-- C6: a stop-time arrival/departure of `s` seconds (possibly past
86400) is decoded as day `1 + s / 86400` and time-of-day `s % 86400`,
formatted as a combined date-time string over the epoch date
(January of year 0); `s = 90000` yields day-offset 1 and time-of-day
`01:00:00`, and an absent value stays absent. -/
theorem C6_stop_time_decode (s : Nat) (h : s < 2678400) :
    decodeStopTime s = some (fmtDateTime 0 1 (1 + s / 86400)
      (s % 86400 / 3600) (s % 86400 % 3600 / 60) (s % 86400 % 60)) ∧
    decodeOptTime (some s) = some (some (fmtDateTime 0 1 (1 + s / 86400)
      (s % 86400 / 3600) (s % 86400 % 3600 / 60) (s % 86400 % 60))) ∧
    decodeOptTime none = some none ∧
    decodeStopTime 90000 = some "0000-01-02T01:00:00" := by
  have hg : 1 + s / 86400 ≤ 31 := by omega
  refine ⟨by simp [decodeStopTime, hg], ?_, rfl, by decide⟩
  simp [decodeOptTime, decodeStopTime, hg]

/-- C6 witness: the decode evaluated at the concrete inputs of the
claim. -/
theorem C6_stop_time_decode_witness :
    decodeOptTime none = some none ∧
    decodeStopTime 90000 = some "0000-01-02T01:00:00" :=
  ⟨(C6_stop_time_decode 90000 (by decide)).2.2.1,
   (C6_stop_time_decode 90000 (by decide)).2.2.2⟩

/-- C7: enum mapping is closed: the three supported route types map
without failing and any other route type aborts (`none`); every
availability / bikes-allowed value converts totally, with unrecognized
values in the `Unknown` bucket; direction and calendar-exception
conversions are total. -/
theorem C7_enum_closure (rt : RouteType) (a : Availability) (b : BikesAllowedType)
    (hrt : rt ≠ RouteType.Rail ∧ rt ≠ RouteType.Bus ∧ rt ≠ RouteType.CableCar)
    (ha : a ≠ Availability.Available ∧ a ≠ Availability.NotAvailable)
    (hb : b ≠ BikesAllowedType.AtLeastOneBike ∧ b ≠ BikesAllowedType.NoBikesAllowed) :
    kdiTransportFromRouteType RouteType.Rail = some KdiTransportEnum.Rail ∧
    kdiTransportFromRouteType RouteType.Bus = some KdiTransportEnum.Bus ∧
    kdiTransportFromRouteType RouteType.CableCar = some KdiTransportEnum.CableCar ∧
    kdiTransportFromRouteType rt = none ∧
    kdiSupportedFromAvailability Availability.Available = KdiSupportedEnum.Supported ∧
    kdiSupportedFromAvailability Availability.NotAvailable = KdiSupportedEnum.NotSupported ∧
    kdiSupportedFromAvailability a = KdiSupportedEnum.Unknown ∧
    kdiSupportedFromBikesAllowed BikesAllowedType.AtLeastOneBike = KdiSupportedEnum.Supported ∧
    kdiSupportedFromBikesAllowed BikesAllowedType.NoBikesAllowed = KdiSupportedEnum.NotSupported ∧
    kdiSupportedFromBikesAllowed b = KdiSupportedEnum.Unknown ∧
    kdiDirectionFromDirectionType DirectionType.Outbound = KdiDirectionEnum.Outbound ∧
    kdiDirectionFromDirectionType DirectionType.Inbound = KdiDirectionEnum.Inbound ∧
    kdiExceptionFromException Exception.Added = KdiExceptionEnum.Added ∧
    kdiExceptionFromException Exception.Deleted = KdiExceptionEnum.Removed := by
  obtain ⟨h₁, h₂, h₃⟩ := hrt
  obtain ⟨ha₁, ha₂⟩ := ha
  obtain ⟨hb₁, hb₂⟩ := hb
  refine ⟨rfl, rfl, rfl, ?_, rfl, rfl, ?_, rfl, rfl, ?_, rfl, rfl, rfl, rfl⟩
  · cases rt <;> first | rfl | exact absurd rfl h₁ | exact absurd rfl h₂ |
      exact absurd rfl h₃
  · cases a <;> first | rfl | exact absurd rfl ha₁ | exact absurd rfl ha₂
  · cases b <;> first | rfl | exact absurd rfl hb₁ | exact absurd rfl hb₂

/-- C7 witness: the closure facts at concrete out-of-domain codes
(`Tramway`, `InformationNotAvailable`, `NoBikeInfo`). -/
theorem C7_enum_closure_witness :
    kdiTransportFromRouteType RouteType.Tramway = none ∧
    kdiSupportedFromAvailability Availability.InformationNotAvailable =
      KdiSupportedEnum.Unknown ∧
    kdiSupportedFromBikesAllowed BikesAllowedType.NoBikeInfo = KdiSupportedEnum.Unknown ∧
    kdiTransportFromRouteType RouteType.Rail = some KdiTransportEnum.Rail :=
  have h := C7_enum_closure RouteType.Tramway Availability.InformationNotAvailable
    BikesAllowedType.NoBikeInfo
    ⟨by decide, by decide, by decide⟩ ⟨by decide, by decide⟩ ⟨by decide, by decide⟩
  ⟨h.2.2.2.1, h.2.2.2.2.2.2.1, h.2.2.2.2.2.2.2.2.2.1, h.1⟩

/-- C5 counterexample: the fare-rule builder of the `main.rs` snapshot
substitutes no sentinel: a row with an absent origin column is emitted
with an absent origin foreign key, not `"ZONE_U_0001"`. -/
theorem C5_main_no_default_counterexample :
    (mainFareRuleRecord TT.Urban frRow).origin_id = none ∧
    (mainFareRuleRecord TT.Urban frRow).origin_id ≠ some "ZONE_U_0001" ∧
    align_fare_rules TT.Urban [frRow] [] [] [] = [⟨"U_F1", none, none⟩] :=
  ⟨rfl, by decide, by decide⟩

/-- C5 (amended): in the `align.rs` builder a fare-rule source row with
an absent origin (resp. destination) zone column is deserialized with
the sentinel raw zone id `"0001"` (`structs.rs`,
`kdi_fare_rule_default`) and then namespaced, so the emitted foreign
key for the urban tier is `"ZONE_U_0001"`, and the record built from
such a row is emitted into the merged fare-rule collection; the older
`main.rs` builder instead leaves the absent column absent. -/
theorem C5_fare_rule_zone_default (r₁ r₂ : FareRuleRow) (tt : TT)
    (h₁ : r₁.origin = none) (h₂ : r₂.destination = none)
    (cash cartascalare mobile : List FareRuleRow) (acc : List KdiFareRule)
    (hr : r₁ ∈ cash) :
    (fareRuleRecord tt (deserializeFareRule r₁)).origin =
      "ZONE_" ++ to_correct_id tt "0001" ∧
    (fareRuleRecord tt (deserializeFareRule r₂)).destination =
      "ZONE_" ++ to_correct_id tt "0001" ∧
    (fareRuleRecord TT.Urban (deserializeFareRule r₁)).origin = "ZONE_U_0001" ∧
    (fareRuleRecord TT.Urban (deserializeFareRule r₂)).destination = "ZONE_U_0001" ∧
    fareRuleRecord tt (deserializeFareRule r₁) ∈
      align_fare_rule tt cash cartascalare mobile acc := by
  refine ⟨?_, ?_, ?_, ?_, ?_⟩
  · simp [fareRuleRecord, deserializeFareRule, h₁, kdi_fare_rule_default]
  · simp [fareRuleRecord, deserializeFareRule, h₂, kdi_fare_rule_default]
  · simp [fareRuleRecord, deserializeFareRule, h₁, kdi_fare_rule_default]
    rfl
  · simp [fareRuleRecord, deserializeFareRule, h₂, kdi_fare_rule_default]
    rfl
  · unfold align_fare_rule
    refine (sortLe_perm _ _).mem_iff.mpr ?_
    simp only [List.append_assoc, List.mem_append, List.mem_map]
    exact Or.inr (Or.inl ⟨r₁, hr, rfl⟩)

/-- C5 witness: the sentinel substitution at a concrete row with both
zone columns absent, merged for the urban tier. -/
theorem C5_fare_rule_zone_default_witness :
    (fareRuleRecord TT.Urban (deserializeFareRule frRow)).origin = "ZONE_U_0001" ∧
    (fareRuleRecord TT.Urban (deserializeFareRule frRow)).destination = "ZONE_U_0001" ∧
    fareRuleRecord TT.Urban (deserializeFareRule frRow) ∈
      align_fare_rule TT.Urban [frRow] [] [] [] :=
  have h := C5_fare_rule_zone_default frRow frRow TT.Urban rfl rfl
    [frRow] [] [] [] (List.mem_singleton_self frRow)
  ⟨h.2.2.1, h.2.2.2.1, h.2.2.2.2⟩

/-- C10: every ParkingStop record that the taxi builder adds has
`total_slots = 1`, regardless of the placemark's named fields. -/
theorem C10_taxi_total_slots (taxi : List Placemark)
    (acc out : List KdiParkingStop)
    (h : align_parking_stop_taxi taxi acc = some out) :
    ∀ r ∈ out, r ∈ acc ∨ r.total_slots = 1 := by
  unfold align_parking_stop_taxi at h
  obtain ⟨new, hnew, rfl⟩ := Option.map_eq_some'.mp h
  intro r hr
  have hr' : r ∈ acc ++ new := (sortLe_perm _ _).mem_iff.mp hr
  rcases List.mem_append.mp hr' with hmem | hmem
  · exact Or.inl hmem
  · right
    obtain ⟨ip, _, hfip⟩ := mapOpt_mem _ _ _ hnew r hmem
    rcases hfind : ip.2.simple_datas.find? (fun d => d.name == "indirizzo") with _ | a
    · rw [hfind] at hfip
      simp at hfip
    · rw [hfind] at hfip
      simp at hfip
      rw [← hfip]

/-- C10 witness: the taxi builder at a concrete placemark. -/
theorem C10_taxi_total_slots_witness :
    taxiRec ∈ ([] : List KdiParkingStop) ∨ taxiRec.total_slots = 1 :=
  C10_taxi_total_slots [pmTaxi] [] [taxiRec] (by decide) taxiRec
    (List.mem_singleton_self taxiRec)


/-- A record appended by `align_location_bike_sharing` carries the id
`"BS_" ++ bs.id`. -/
theorem bike_location_id (bs : BikeSharing) (b : KdiLocation)
    (hb : (match bs.position with
      | [p0, p1] => some { id := "BS_" ++ bs.id, name := bs.name
                           latitude := p0, longitude := p1 }
      | _ => (none : Option KdiLocation)) = some b) : b.id = "BS_" ++ bs.id := by
  rcases hpos : bs.position with _ | ⟨p0, t⟩
  · rw [hpos] at hb
    simp at hb
  · rcases t with _ | ⟨p1, t2⟩
    · rw [hpos] at hb
      simp at hb
    · rcases t2 with _ | ⟨p2, t3⟩
      · rw [hpos] at hb
        have hbb := Option.some.inj hb
        rw [← hbb]
      · rw [hpos] at hb
        simp at hb

/-- A record appended by `align_bike_sharing_stop` carries the id
`"BS_" ++ bs.id`. -/
theorem bike_stop_id (bs : BikeSharing) (b : KdiBikeSharingStop)
    (hb : (match bs.position with
      | [_, _] => some { id := "BS_" ++ bs.id, location := "BS_" ++ bs.id
                         ptype := KdiParkingStopEnum.BikeSharing
                         address := bs.address
                         total_slots := bs.total_slots, free_slots := bs.slots
                         bikes := bs.bikes }
      | _ => (none : Option KdiBikeSharingStop)) = some b) :
    b.id = "BS_" ++ bs.id := by
  rcases hpos : bs.position with _ | ⟨p0, t⟩
  · rw [hpos] at hb
    simp at hb
  · rcases t with _ | ⟨p1, t2⟩
    · rw [hpos] at hb
      simp at hb
    · rcases t2 with _ | ⟨p2, t3⟩
      · rw [hpos] at hb
        have hbb := Option.some.inj hb
        rw [← hbb]
      · rw [hpos] at hb
        simp at hb

/-- C2 counterexample: `align_calendar_exception` embeds the source
iteration index into each record's `id` and sorts by it, so two runs
over the same two calendar-date records in the two possible iteration
orders produce different output collections. -/
theorem C2_iteration_order_counterexample :
    align_calendar_exception TT.Urban [cdA, cdB] [] =
      [⟨"0", "U_A", "2021-01-01T00:00:00", KdiExceptionEnum.Added⟩,
       ⟨"1", "U_B", "2021-01-02T00:00:00", KdiExceptionEnum.Removed⟩] ∧
    align_calendar_exception TT.Urban [cdB, cdA] [] =
      [⟨"0", "U_B", "2021-01-02T00:00:00", KdiExceptionEnum.Removed⟩,
       ⟨"1", "U_A", "2021-01-01T00:00:00", KdiExceptionEnum.Added⟩] ∧
    align_calendar_exception TT.Urban [cdA, cdB] [] ≠
      align_calendar_exception TT.Urban [cdB, cdA] [] :=
  ⟨by decide, by decide, by decide⟩

/-- C2 (amended): a merge step whose comparator key determines the
whole record is independent of the source iteration order: permuting
the calendar-date sequence leaves the output of `align_calendar_dates`
(`main.rs`) unchanged whenever no two distinct accumulated records
share the `(calendar, date)` key.  (The `align.rs`
`align_calendar_exception` builder does not have this property, see the
counterexample.) -/
theorem C2_merge_order_independent (tt : TT) (l₁ l₂ : List GCalendarDate)
    (acc : List MainCalendarException)
    (hperm : List.Perm l₁ l₂)
    (hkey : ∀ a ∈ acc ++ l₁.map (mainCalendarDateRecord tt),
      ∀ b ∈ acc ++ l₁.map (mainCalendarDateRecord tt),
      a.calendar_id = b.calendar_id → a.date = b.date → a = b) :
    align_calendar_dates tt l₁ acc = align_calendar_dates tt l₂ acc := by
  unfold align_calendar_dates
  have htot := ordLe_total (prodOrd strOrd strOrd)
    (fun r : MainCalendarException => (r.calendar_id, r.date))
    (prodOrd_swap _ _ strOrd_swap strOrd_swap)
  have htrans := ordLe_trans (prodOrd strOrd strOrd)
    (fun r : MainCalendarException => (r.calendar_id, r.date))
    (prodOrd_isLE_trans _ _ strOrd_eq_iff strOrd_swap
      strOrd_isLE_trans strOrd_isLE_trans)
  apply sorted_perm_eq (strStrKeyLe fun r => (r.calendar_id, r.date))
  · exact (sortLe_perm _ _).trans
      ((List.Perm.append_left acc (hperm.map _)).trans (sortLe_perm _ _).symm)
  · exact pairwise_sortLe _ htot htrans _
  · exact pairwise_sortLe _ htot htrans _
  · intro a ha b hb hab hba
    have hmema : a ∈ acc ++ l₁.map (mainCalendarDateRecord tt) :=
      (sortLe_perm _ _).mem_iff.mp ha
    have hmemb : b ∈ acc ++ l₁.map (mainCalendarDateRecord tt) :=
      (sortLe_perm _ _).mem_iff.mp hb
    have hk := ordLe_key_eq (prodOrd strOrd strOrd)
      (fun r : MainCalendarException => (r.calendar_id, r.date))
      (prodOrd_swap _ _ strOrd_swap strOrd_swap)
      (prodOrd_eq_iff _ _ strOrd_eq_iff strOrd_eq_iff) a b hab hba
    exact hkey a hmema b hmemb (congrArg Prod.fst hk) (congrArg Prod.snd hk)

/-- C2 witness: the order-independent merge at the two concrete
iteration orders of the counterexample's records. -/
theorem C2_merge_order_independent_witness :
    align_calendar_dates TT.Urban [cdA, cdB] [] =
      align_calendar_dates TT.Urban [cdB, cdA] [] :=
  C2_merge_order_independent TT.Urban [cdA, cdB] [cdB, cdA] []
    (List.Perm.swap cdB cdA []) (by decide)

/-- C3 counterexample: with two feeds whose single agencies differ,
the emitted record is built from the extra-urban feed's agency, not
the urban one. -/
theorem C3_agency_counterexample :
    buildAgency [agEU] [agU] =
      some ⟨"AEU", "ExtraUrbanAgency", "info@trentinotrasporti.it", "111",
        "eu.example"⟩ ∧
    buildAgency [agEU] [agU] ≠
      some ⟨"AU", "UrbanAgency", "info@trentinotrasporti.it", "000",
        "u.example"⟩ :=
  ⟨by decide, by decide⟩

/-- C3 (amended): exactly one Agency record is emitted and it is built
from the extra-urban tier's feed (with a hard-coded email); the urban
tier's agency record is only used to assert that that feed too has
exactly one agency, and any other agency count in either feed is
fatal. -/
theorem C3_agency_from_extraurban (eu u : List GAgency) (a : GAgency) (i p : String)
    (heu : eu = [a]) (hu : u.length = 1) (hid : a.id = some i)
    (hph : a.phone = some p) (eu₂ u₂ : List GAgency)
    (hbad : ¬(eu₂.length = 1 ∧ u₂.length = 1)) :
    buildAgency eu u =
      some ⟨i, a.name, "info@trentinotrasporti.it", p, a.url⟩ ∧
    buildAgency eu₂ u₂ = none := by
  constructor
  · subst heu
    unfold buildAgency
    rw [if_pos ⟨rfl, hu⟩]
    simp [hid, hph]
  · unfold buildAgency
    rw [if_neg hbad]

/-- C3 witness: the agency step at the concrete feeds of the
counterexample, plus the fatal case of an empty feed. -/
theorem C3_agency_from_extraurban_witness :
    buildAgency [agEU] [agU] =
      some ⟨"AEU", "ExtraUrbanAgency", "info@trentinotrasporti.it", "111",
        "eu.example"⟩ ∧
    buildAgency [] [] = none :=
  C3_agency_from_extraurban [agEU] [agU] agEU "AEU" "111" rfl (by decide)
    rfl rfl [] [] (by decide)

/-- C4 counterexample: after the `align.rs` calendar-exception build
step the collection is sorted by the stringified running index, not by
`(calendar, date)`: two records arriving in descending calendar order
stay in that order. -/
theorem C4_calendar_exception_key_counterexample :
    align_calendar_exception TT.Urban [cdB, cdA] [] =
      [⟨"0", "U_B", "2021-01-02T00:00:00", KdiExceptionEnum.Removed⟩,
       ⟨"1", "U_A", "2021-01-01T00:00:00", KdiExceptionEnum.Added⟩] ∧
    isSortedBy (strStrKeyLe fun r => (r.calendar, r.date))
      (align_calendar_exception TT.Urban [cdB, cdA] []) = false :=
  ⟨by decide, by decide⟩

/-- C4 (amended): after the merge each collection is sorted by its
entity kind's fixed key — StopTime by `(trip, sequence)`, FareRule by
`fare` alone, Calendar and Fare by `id`, CalendarException by
`(calendar, date)` in the `main.rs` builder but by its stringified
running-index `id` in the `align.rs` builder. -/
theorem C4_sorted_by_fixed_keys (tt : TT)
    (trips : List GTrip) (stAcc outST : List KdiStopTime)
    (hST : align_stop_time tt trips stAcc = some outST)
    (cash cartascalare mobile : List FareRuleRow) (frAcc : List KdiFareRule)
    (cds : List GCalendarDate) (mAcc : List MainCalendarException)
    (cds₂ : List GCalendarDate) (ceAcc : List KdiCalendarException)
    (cals : List GCalendar) (calAcc : List KdiCalendar)
    (f₁ f₂ f₃ fAcc : List KdiFare) :
    isSortedBy (strNatKeyLe fun r => (r.trip, r.sequence)) outST = true ∧
    isSortedBy (strKeyLe KdiFareRule.fare)
      (align_fare_rule tt cash cartascalare mobile frAcc) = true ∧
    isSortedBy (strStrKeyLe fun r => (r.calendar_id, r.date))
      (align_calendar_dates tt cds mAcc) = true ∧
    isSortedBy (strKeyLe KdiCalendarException.id)
      (align_calendar_exception tt cds₂ ceAcc) = true ∧
    isSortedBy (strKeyLe KdiCalendar.id) (align_calendar tt cals calAcc) = true ∧
    isSortedBy (strKeyLe KdiFare.id) (align_fare tt f₁ f₂ f₃ fAcc) = true := by
  unfold align_stop_time at hST
  obtain ⟨new, -, rfl⟩ := Option.map_eq_some'.mp hST
  exact ⟨isSortedBy_sortLe_strNatKey _ _, isSortedBy_sortLe_strKey _ _,
    isSortedBy_sortLe_strStrKey _ _, isSortedBy_sortLe_strKey _ _,
    isSortedBy_sortLe_strKey _ _, isSortedBy_sortLe_strKey _ _⟩

/-- C4 witness: the sortedness facts at concrete inputs. -/
theorem C4_sorted_by_fixed_keys_witness :
    isSortedBy (strNatKeyLe fun r => (r.trip, r.sequence))
      ([] : List KdiStopTime) = true ∧
    isSortedBy (strKeyLe KdiFareRule.fare)
      (align_fare_rule TT.Urban [frRow] [] [] []) = true ∧
    isSortedBy (strStrKeyLe fun r => (r.calendar_id, r.date))
      (align_calendar_dates TT.Urban [cdA, cdB] []) = true ∧
    isSortedBy (strKeyLe KdiCalendarException.id)
      (align_calendar_exception TT.Urban [cdB, cdA] []) = true ∧
    isSortedBy (strKeyLe KdiCalendar.id) (align_calendar TT.Urban [] []) = true ∧
    isSortedBy (strKeyLe KdiFare.id) (align_fare TT.Urban [] [] [] []) = true :=
  C4_sorted_by_fixed_keys TT.Urban [] [] [] rfl [frRow] [] [] []
    [cdA, cdB] [] [cdB, cdA] [] [] [] [] [] [] []


/-- C8 counterexample: the bike-sharing location builder and the
bike-sharing stop builder return successfully with an unsorted
accumulator (two feed records in descending id order stay in that
order), so not every builder applies the ordering step. -/
theorem C8_bike_sharing_unsorted_counterexample :
    (align_location_bike_sharing [bsX, bsY] []).map
      (isSortedBy (strKeyLe KdiLocation.id)) = some false ∧
    (align_bike_sharing_stop [bsX, bsY] []).map
      (isSortedBy (strKeyLe KdiBikeSharingStop.location)) = some false :=
  ⟨by decide, by decide⟩

/-- C8 (amended): every `align.rs` builder except the bike-sharing
location builder and the bike-sharing stop builder leaves its
accumulator sorted by the entity kind's comparator when it returns;
the two bike-sharing builders append their records in source
enumeration order without any sort. -/
theorem C8_ordering_discipline (tt : TT)
    (zs : List KdiZone) (al : List KdiLocation)
    (gs : List GStop) (bl : List KdiLocation) (outA : List KdiLocation)
    (hA : align_location_public_transport_stop tt gs bl = some outA)
    (p₁ : List Placemark) (c₁ o₁ : List KdiLocation)
    (h₁ : align_location_car_sharing p₁ c₁ = some o₁)
    (p₂ : List Placemark) (c₂ o₂ : List KdiLocation)
    (h₂ : align_location_centro_in_bici p₂ c₂ = some o₂)
    (p₃ : List Placemark) (c₃ o₃ : List KdiLocation)
    (h₃ : align_location_parcheggio_protetto_biciclette p₃ c₃ = some o₃)
    (p₄ : List Placemark) (c₄ o₄ : List KdiLocation)
    (h₄ : align_location_taxi p₄ c₄ = some o₄)
    (bss : List BikeSharing) (lb oBS : List KdiLocation)
    (hBS : align_location_bike_sharing bss lb = some oBS)
    (cds : List GCalendarDate) (ce : List KdiCalendarException)
    (cal : List GCalendar) (ca : List KdiCalendar)
    (fr₁ fr₂ fr₃ : List FareRuleRow) (fr : List KdiFareRule)
    (q₁ : List Placemark) (k₁ w₁ : List KdiParkingStop)
    (g₁ : align_parking_stop_car_sharing q₁ k₁ = some w₁)
    (q₂ : List Placemark) (k₂ w₂ : List KdiParkingStop)
    (g₂ : align_parking_stop_centro_in_bici q₂ k₂ = some w₂)
    (q₃ : List Placemark) (k₃ w₃ : List KdiParkingStop)
    (g₃ : align_parking_stop_parcheggio_protetto_biciclette q₃ k₃ = some w₃)
    (q₄ : List Placemark) (k₄ w₄ : List KdiParkingStop)
    (g₄ : align_parking_stop_taxi q₄ k₄ = some w₄)
    (fa₁ fa₂ fa₃ fa : List KdiFare)
    (bss₂ : List BikeSharing) (sb oBSS : List KdiBikeSharingStop)
    (hBSS : align_bike_sharing_stop bss₂ sb = some oBSS)
    (gs₂ : List GStop) (pts : List KdiPublicTransportStop)
    (tr : List GTrip) (st : List KdiStopTime) (oST : List KdiStopTime)
    (hST : align_stop_time tt tr st = some oST)
    (tr₂ : List GTrip) (tp oTR : List KdiTrip)
    (hTR : align_trip tt tr₂ tp = some oTR)
    (rs : List GRoute) (ra oRT : List KdiRoute)
    (hRT : align_route tt rs ra = some oRT) :
    isSortedBy (strKeyLe KdiLocation.id) (align_location_zone tt zs al) = true ∧
    isSortedBy (strKeyLe KdiLocation.id) outA = true ∧
    isSortedBy (strKeyLe KdiLocation.id) o₁ = true ∧
    isSortedBy (strKeyLe KdiLocation.id) o₂ = true ∧
    isSortedBy (strKeyLe KdiLocation.id) o₃ = true ∧
    isSortedBy (strKeyLe KdiLocation.id) o₄ = true ∧
    oBS.map KdiLocation.id =
      lb.map KdiLocation.id ++ bss.map (fun bs => "BS_" ++ bs.id) ∧
    isSortedBy (strKeyLe KdiCalendarException.id)
      (align_calendar_exception tt cds ce) = true ∧
    isSortedBy (strKeyLe KdiCalendar.id) (align_calendar tt cal ca) = true ∧
    isSortedBy (strKeyLe KdiFareRule.fare)
      (align_fare_rule tt fr₁ fr₂ fr₃ fr) = true ∧
    isSortedBy (strKeyLe KdiParkingStop.location) w₁ = true ∧
    isSortedBy (strKeyLe KdiParkingStop.location) w₂ = true ∧
    isSortedBy (strKeyLe KdiParkingStop.location) w₃ = true ∧
    isSortedBy (strKeyLe KdiParkingStop.location) w₄ = true ∧
    isSortedBy (strKeyLe KdiFare.id) (align_fare tt fa₁ fa₂ fa₃ fa) = true ∧
    oBSS.map KdiBikeSharingStop.id =
      sb.map KdiBikeSharingStop.id ++ bss₂.map (fun bs => "BS_" ++ bs.id) ∧
    isSortedBy (strKeyLe KdiPublicTransportStop.location)
      (align_public_transport_stop tt gs₂ pts) = true ∧
    isSortedBy (strNatKeyLe fun r => (r.trip, r.sequence)) oST = true ∧
    isSortedBy (strKeyLe KdiTrip.id) oTR = true ∧
    isSortedBy (strKeyLe KdiRoute.id) oRT = true := by
  unfold align_location_public_transport_stop at hA
  obtain ⟨nA, -, rfl⟩ := Option.map_eq_some'.mp hA
  unfold align_location_car_sharing alignLocationKml at h₁
  obtain ⟨n₁, -, rfl⟩ := Option.map_eq_some'.mp h₁
  unfold align_location_centro_in_bici alignLocationKml at h₂
  obtain ⟨n₂, -, rfl⟩ := Option.map_eq_some'.mp h₂
  unfold align_location_parcheggio_protetto_biciclette alignLocationKml at h₃
  obtain ⟨n₃, -, rfl⟩ := Option.map_eq_some'.mp h₃
  unfold align_location_taxi alignLocationKml at h₄
  obtain ⟨n₄, -, rfl⟩ := Option.map_eq_some'.mp h₄
  unfold align_location_bike_sharing at hBS
  obtain ⟨nBS, hnBS, rfl⟩ := Option.map_eq_some'.mp hBS
  unfold align_parking_stop_car_sharing alignParkingKml at g₁
  obtain ⟨m₁, -, rfl⟩ := Option.map_eq_some'.mp g₁
  unfold align_parking_stop_centro_in_bici alignParkingKml at g₂
  obtain ⟨m₂, -, rfl⟩ := Option.map_eq_some'.mp g₂
  unfold align_parking_stop_parcheggio_protetto_biciclette alignParkingKml at g₃
  obtain ⟨m₃, -, rfl⟩ := Option.map_eq_some'.mp g₃
  unfold align_parking_stop_taxi at g₄
  obtain ⟨m₄, -, rfl⟩ := Option.map_eq_some'.mp g₄
  unfold align_bike_sharing_stop at hBSS
  obtain ⟨nBSS, hnBSS, rfl⟩ := Option.map_eq_some'.mp hBSS
  unfold align_stop_time at hST
  obtain ⟨nST, -, rfl⟩ := Option.map_eq_some'.mp hST
  unfold align_trip at hTR
  obtain ⟨nTR, -, rfl⟩ := Option.map_eq_some'.mp hTR
  unfold align_route at hRT
  obtain ⟨nRT, -, rfl⟩ := Option.map_eq_some'.mp hRT
  refine ⟨isSortedBy_sortLe_strKey _ _, isSortedBy_sortLe_strKey _ _,
    isSortedBy_sortLe_strKey _ _, isSortedBy_sortLe_strKey _ _,
    isSortedBy_sortLe_strKey _ _, isSortedBy_sortLe_strKey _ _, ?_,
    isSortedBy_sortLe_strKey _ _, isSortedBy_sortLe_strKey _ _,
    isSortedBy_sortLe_strKey _ _, isSortedBy_sortLe_strKey _ _,
    isSortedBy_sortLe_strKey _ _, isSortedBy_sortLe_strKey _ _,
    isSortedBy_sortLe_strKey _ _, isSortedBy_sortLe_strKey _ _, ?_,
    isSortedBy_sortLe_strKey _ _, isSortedBy_sortLe_strNatKey _ _,
    isSortedBy_sortLe_strKey _ _, isSortedBy_sortLe_strKey _ _⟩
  · rw [List.map_append]
    congr 1
    exact mapOpt_map_eq _ _ _ (fun bs b hb => bike_location_id bs b hb) bss nBS hnBS
  · rw [List.map_append]
    congr 1
    exact mapOpt_map_eq _ _ _ (fun bs b hb => bike_stop_id bs b hb) bss₂ nBSS hnBSS

/-- C8 witness: the ordering facts at concrete (empty) builder
inputs. -/
theorem C8_ordering_discipline_witness :
    isSortedBy (strKeyLe KdiLocation.id)
      (align_location_zone TT.Urban [] []) = true ∧
    isSortedBy (strKeyLe KdiLocation.id) ([] : List KdiLocation) = true ∧
    isSortedBy (strKeyLe KdiLocation.id) ([] : List KdiLocation) = true ∧
    isSortedBy (strKeyLe KdiLocation.id) ([] : List KdiLocation) = true ∧
    isSortedBy (strKeyLe KdiLocation.id) ([] : List KdiLocation) = true ∧
    isSortedBy (strKeyLe KdiLocation.id) ([] : List KdiLocation) = true ∧
    ([] : List KdiLocation).map KdiLocation.id =
      ([] : List KdiLocation).map KdiLocation.id ++
        ([] : List BikeSharing).map (fun bs => "BS_" ++ bs.id) ∧
    isSortedBy (strKeyLe KdiCalendarException.id)
      (align_calendar_exception TT.Urban [] []) = true ∧
    isSortedBy (strKeyLe KdiCalendar.id) (align_calendar TT.Urban [] []) = true ∧
    isSortedBy (strKeyLe KdiFareRule.fare)
      (align_fare_rule TT.Urban [] [] [] []) = true ∧
    isSortedBy (strKeyLe KdiParkingStop.location)
      ([] : List KdiParkingStop) = true ∧
    isSortedBy (strKeyLe KdiParkingStop.location)
      ([] : List KdiParkingStop) = true ∧
    isSortedBy (strKeyLe KdiParkingStop.location)
      ([] : List KdiParkingStop) = true ∧
    isSortedBy (strKeyLe KdiParkingStop.location)
      ([] : List KdiParkingStop) = true ∧
    isSortedBy (strKeyLe KdiFare.id) (align_fare TT.Urban [] [] [] []) = true ∧
    ([] : List KdiBikeSharingStop).map KdiBikeSharingStop.id =
      ([] : List KdiBikeSharingStop).map KdiBikeSharingStop.id ++
        ([] : List BikeSharing).map (fun bs => "BS_" ++ bs.id) ∧
    isSortedBy (strKeyLe KdiPublicTransportStop.location)
      (align_public_transport_stop TT.Urban [] []) = true ∧
    isSortedBy (strNatKeyLe fun r => (r.trip, r.sequence))
      ([] : List KdiStopTime) = true ∧
    isSortedBy (strKeyLe KdiTrip.id) ([] : List KdiTrip) = true ∧
    isSortedBy (strKeyLe KdiRoute.id) ([] : List KdiRoute) = true :=
  C8_ordering_discipline TT.Urban [] [] [] [] [] rfl [] [] [] rfl [] [] [] rfl
    [] [] [] rfl [] [] [] rfl [] [] [] rfl [] [] [] [] [] [] [] []
    [] [] [] rfl [] [] [] rfl [] [] [] rfl [] [] [] rfl [] [] [] []
    [] [] [] rfl [] [] [] [] [] rfl [] [] [] rfl [] [] [] rfl

end Kdi
